import Mathlib

/-
  Verification of the entity-hydration layer of the Tokage MAL API client
  (src/tokage/abc.py).  The raw API payloads are JSON-shaped mappings; we
  embed them as a `Value` type and translate each constructor
  (`Anime.__init__`, `Manga.__init__`, `Character.__init__`,
  `Person.__init__`) into a Lean function returning `Except PyError`.

  Python's `kwargs` is a fresh dict in the callee, so `kwargs.pop` is
  invisible to the caller; every key is popped at most once, so inside the
  constructor `pop(k, None)` behaves as a lookup with a null default.
  In-place mutation of *nested* records (`relation['relation'] = ...`,
  `anime['id'] = ...`, `author[0]['id'] = ...`) IS visible to the caller,
  because the nested objects are shared by reference.  We model the payload
  as a tree (no internal aliasing, the shape JSON parsing produces) and
  each constructor returns, besides the entity, the caller-visible payload
  after construction.
-/

set_option autoImplicit false
set_option maxHeartbeats 1000000

namespace Tokage

/-- JSON-shaped payload values: the input boundary of the hydration layer. -/
inductive Value where
  | null : Value
  | bool : Bool → Value
  | int : Int → Value
  | str : String → Value
  | arr : List Value → Value
  | obj : List (String × Value) → Value

/-- A raw field mapping (Python dict with string keys, insertion order kept). -/
abbrev Assoc := List (String × Value)

/-- Errors a constructor can raise.  `typeError` / `indexError` / `keyError` /
`valueError` model the corresponding uncontrolled Python exceptions;
`malformedReference` and `unknownEntityKind` are the two typed domain errors
of the spec's error taxonomy (ID parser, relation factory). -/
inductive PyError where
  | typeError : PyError
  | indexError : PyError
  | valueError : PyError
  | keyError : String → PyError
  | malformedReference : PyError
  | unknownEntityKind : PyError
deriving DecidableEq

/-- Python `d.pop(k, None)` / `d.get(k)`: first value stored under `k`, null if absent. -/
def lookupD : Assoc → String → Value
  | [], _ => .null
  | (k', v) :: rest, k => if k' == k then v else lookupD rest k

/-- Python `k in d`: key membership test. -/
def hasKey : Assoc → String → Bool
  | [], _ => false
  | (k', _) :: rest, k => k' == k || hasKey rest k

/-- Python `d[k] = v`: replace the value of the first entry with key `k`, keeping its
position (Python dicts keep the position of an existing key); append at the
end when the key is absent (Python dicts append new keys). -/
def setA : Assoc → String → Value → Assoc
  | [], k, v => [(k, v)]
  | (k', v') :: rest, k, v =>
      if k' == k then (k', v) :: rest else (k', v') :: setA rest k v

/-- Python `v[k]` on a payload value: key lookup on a mapping (KeyError when the key
is absent), TypeError on any non-mapping. -/
def getItem (v : Value) (k : String) : Except PyError Value :=
  match v with
  | .obj fs => if hasKey fs k then .ok (lookupD fs k) else .error (.keyError k)
  | _ => .error .typeError

/-- Left-to-right, non-overlapping split of a character list on a separator
sequence, fuelled by the input length (the fuel never runs out when it starts
at `s.length`); mirrors Python's `str.split(sep)` for a non-empty `sep`. -/
def splitGo (sep : List Char) : List Char → List Char → Nat → List (List Char)
  | [], acc, _ => [acc.reverse]
  | c :: rest, acc, 0 => [acc.reverse ++ (c :: rest)]
  | c :: rest, acc, fuel + 1 =>
      if sep.isPrefixOf (c :: rest) then
        acc.reverse :: splitGo sep ((c :: rest).drop sep.length) [] fuel
      else
        splitGo sep rest (c :: acc) fuel

/-- Python `s.split(sep)` for a non-empty separator string. -/
def pySplit (sep s : String) : List String :=
  if sep.data.isEmpty then [s]
  else (splitGo sep.data s.data [] s.data.length).map fun cs => String.mk cs

/-- Python `needle in hay` on strings: substring containment, phrased through
the split so that the containment test and the split agree by definition. -/
def containsSub (needle hay : String) : Bool :=
  decide ((pySplit needle hay).length > 1)

/-- Python `needle in xs` for a list value: `==`-membership; a string compares
equal only to the identical string, never to a value of another shape. -/
def strInArr (needle : String) (xs : List Value) : Bool :=
  xs.any fun x => match x with
    | .str t => t == needle
    | _ => false

/-- Python `" to " in v` for a payload value `v`: substring test on a string,
membership on a list, key membership on a mapping, TypeError otherwise (in
particular on the null default of a missing field). -/
def containsTo (v : Value) : Except PyError Bool :=
  match v with
  | .str s => .ok (containsSub " to " s)
  | .arr xs => .ok (strInArr " to " xs)
  | .obj fs => .ok (fs.any fun p => p.1 == " to ")
  | _ => .error .typeError

/-- Value of a digit sequence, most significant first. -/
def digitsToNat (cs : List Char) : Nat :=
  cs.foldl (fun acc c => acc * 10 + (c.toNat - 48)) 0

/-- Modelled from the spec: the ID Parser of §4.1 (`parse_id` lives in
src/tokage/utils.py, which is absent from src/).  Given a URL-like string it
extracts the embedded numeric identifier — the numeric path segment — and
fails with `malformedReference` when no such segment exists; e.g.
"https://myanimelist.net/character/1000/Name" yields 1000. -/
def parse_id (v : Value) : Except PyError Int :=
  match v with
  | .str url =>
      match (pySplit "/" url).find? (fun seg => !seg.isEmpty && seg.data.all Char.isDigit) with
      | some seg => .ok (Int.ofNat (digitsToNat seg.data))
      | none => .error .malformedReference
  | _ => .error .typeError

/-- Python truthiness of a payload value (`if raw:`): null, False, 0, the
empty string, the empty list and the empty mapping are falsy. -/
def Value.truthy : Value → Bool
  | .null => false
  | .bool b => b
  | .int n => n != 0
  | .str s => !s.isEmpty
  | .arr xs => !xs.isEmpty
  | .obj fs => !fs.isEmpty

/-- Discriminator of a lightweight media reference. -/
inductive RefKind where
  | anime : RefKind
  | manga : RefKind
deriving DecidableEq

/-- Modelled from the spec: the lightweight Anime or Manga reference of
src/tokage/partial.py (absent from src/) — a minimal stand-in of ID and
basic identifying fields, tagged with the relation label when built by the
relation factory. -/
structure PartialMedia where
  kind : RefKind
  id : Value
  name : Value
  url : Value
  relation : Value

/-- Modelled from the spec: `PartialAnime.from_character` /
`PartialManga.from_character` (src/tokage/partial.py, absent from src/) —
build a reference from a character-appearance record whose numeric `id` the
Character constructor has already attached. -/
def PartialMedia.from_character (kind : RefKind) (fs : Assoc) : PartialMedia :=
  { kind := kind, id := lookupD fs "id", name := lookupD fs "name"
  , url := lookupD fs "url", relation := .null }

/-- Modelled from the spec: the lightweight Person reference of
src/tokage/partial.py (absent from src/). -/
structure PartialPerson where
  id : Value
  name : Value
  url : Value

/-- Modelled from the spec: `PartialPerson.from_author` (src/tokage/partial.py,
absent from src/) — build a Person reference from the first author record,
whose numeric `id` the Manga constructor has already attached. -/
def PartialPerson.from_author (fs : Assoc) : PartialPerson :=
  { id := lookupD fs "id", name := lookupD fs "name", url := lookupD fs "url" }

/-- Modelled from the spec: the Relation Factory of §4.2 (`create_relation`
lives in src/tokage/utils.py, absent from src/).  Inspect the record's `type`
discriminator — "anime" versus "manga" — and build the corresponding
lightweight reference with its numeric ID parsed from the record's URL and
the pre-attached `relation` label; an unrecognized discriminator fails with
`unknownEntityKind`. -/
def create_relation (rec : Value) : Except PyError PartialMedia :=
  match rec with
  | .obj fs =>
      match lookupD fs "type" with
      | .str "anime" => do
          let url ← getItem rec "url"
          let i ← parse_id url
          .ok { kind := .anime, id := .int i, name := lookupD fs "title"
              , url := url, relation := lookupD fs "relation" }
      | .str "manga" => do
          let url ← getItem rec "url"
          let i ← parse_id url
          .ok { kind := .manga, id := .int i, name := lookupD fs "title"
              , url := url, relation := lookupD fs "relation" }
      | _ => .error .unknownEntityKind
  | _ => .error .typeError

/-- Date-range normalization (abc.py lines 106-111 and 233-238):
`if " to " not in t: start, end = t, None else: start, end = t.split(" to ")`.
The containment test on the null default of a missing field raises a
TypeError; a split that does not yield exactly two parts fails the tuple
unpacking with a ValueError; a non-string that passes the containment test
(a list or mapping containing " to ") has no `.split` attribute. -/
def splitDate (v : Value) : Except PyError (Value × Value) := do
  let c ← containsTo v
  if c then
    match v with
    | .str s =>
        match pySplit " to " s with
        | [a, b] => .ok (.str a, .str b)
        | _ => .error .valueError
    | _ => .error .typeError
  else
    .ok (v, .null)

/-- Genre source selection (abc.py lines 121-123 / 244-246): pop `genre`;
when that value is null (or the key absent), fall back to `genres`. -/
def genreChoice (kw : Assoc) : Value :=
  match lookupD kw "genre" with
  | .null => lookupD kw "genres"
  | v => v

/-- Genre normalization (abc.py line 124 / 247):
`[g['name'] for g in raw] if raw else None`.  A falsy raw value (null, empty
list, ...) yields null; a truthy list maps each record to its `name` item;
a truthy non-list is not iterable as records (its elements are characters or
keys, whose `['name']` indexing raises a TypeError). -/
def genresOf (v : Value) : Except PyError Value :=
  if v.truthy then
    match v with
    | .arr gs => do
        let names ← gs.mapM fun g => getItem g "name"
        .ok (.arr names)
    | _ => .error .typeError
  else
    .ok .null

/-- Python `x[0]`: first element of a list (IndexError when empty), first
character of a string, TypeError on null and other non-sequences (a mapping
raises a KeyError for the absent key 0). -/
def firstItem (v : Value) : Except PyError Value :=
  match v with
  | .arr (x :: _) => .ok x
  | .arr [] => .error .indexError
  | .str s => if s.isEmpty then .error .indexError else .ok (.str (String.mk [s.data.headD ' ']))
  | .obj _ => .error (.keyError "0")
  | _ => .error .typeError

/-- Inner loop of related-entity resolution (abc.py lines 137-141 / 259-263):
for each record of one relation group, set `record['relation']` to the group's
relation-type label (mutating the record in place), build the reference
through the relation factory, and collect both the references and the mutated
records.  Item assignment on a non-mapping record raises a TypeError. -/
def buildRelGroup (rt : String) : List Value → Except PyError (List PartialMedia × List Value)
  | [] => .ok ([], [])
  | rec :: rest =>
      match rec with
      | .obj fs => do
          let tagged := Value.obj (setA fs "relation" (.str rt))
          let ref ← create_relation tagged
          let (refs, recs) ← buildRelGroup rt rest
          .ok (ref :: refs, tagged :: recs)
      | _ => .error .typeError

/-- Outer loop of related-entity resolution: iterate the relation-type →
record-list mapping in its insertion order, flattening the groups into one
ordered reference list; each group must be a list of records.  Returns the
references together with the caller-visible mutated mapping entries. -/
def buildRelatedEntries : List (String × Value) → Except PyError (List PartialMedia × List (String × Value))
  | [] => .ok ([], [])
  | (rt, v) :: rest =>
      match v with
      | .arr recs => do
          let (refs, recs') ← buildRelGroup rt recs
          let (refsR, restR) ← buildRelatedEntries rest
          .ok (refs ++ refsR, (rt, .arr recs') :: restR)
      | _ => .error .typeError

/-- Related-entity resolution on the popped `related` value: `.items()` is
only available on a mapping — in particular the null default of a missing
`related` field raises a TypeError (AttributeError in Python; an uncontrolled
failure either way). -/
def buildRelated (v : Value) : Except PyError (List PartialMedia × Value) :=
  match v with
  | .obj entries => do
      let (refs, entries') ← buildRelatedEntries entries
      .ok (refs, .obj entries')
  | _ => .error .typeError

/-- One appearance-list step (abc.py lines 312-315 / 319-322): for each
record, `rec['id'] = parse_id(rec['url'])` (KeyError when `url` is absent,
in-place mutation of the shared record), then build the lightweight
reference.  Returns the references with the mutated records. -/
def buildOgraphy (kind : RefKind) : List Value → Except PyError (List PartialMedia × List Value)
  | [] => .ok ([], [])
  | rec :: rest =>
      match rec with
      | .obj fs => do
          let url ← getItem rec "url"
          let i ← parse_id url
          let enriched := setA fs "id" (.int i)
          let (refs, recs) ← buildOgraphy kind rest
          .ok (PartialMedia.from_character kind enriched :: refs, Value.obj enriched :: recs)
      | _ => .error .typeError

/-- Appearance-list resolution on a popped ography value: iterating the null
default of a missing field raises a TypeError; a record list is processed
record by record. -/
def buildOgraphyV (kind : RefKind) (v : Value) : Except PyError (List PartialMedia × Value) :=
  match v with
  | .arr recs => do
      let (refs, recs') ← buildOgraphy kind recs
      .ok (refs, .arr recs')
  | _ => .error .typeError

/-- Manga author resolution (abc.py lines 240-242):
`raw = kwargs.pop('author', None)[0]` — TypeError on the null default,
IndexError on an empty list — then `raw['id'] = parse_id(raw['url'])`
(mutating the shared first record in place) and
`PartialPerson.from_author(raw)`.  Returns the reference together with the
caller-visible mutated author list. -/
def buildAuthor (v : Value) : Except PyError (PartialPerson × Value) :=
  match v with
  | .arr (rec :: rest) =>
      match rec with
      | .obj fs => do
          let url ← getItem rec "url"
          let i ← parse_id url
          let enriched := setA fs "id" (.int i)
          .ok (PartialPerson.from_author enriched, .arr (Value.obj enriched :: rest))
      | _ => .error .typeError
  | .arr [] => .error .indexError
  | .str s => if s.isEmpty then .error .indexError else .error .typeError
  | .obj _ => .error (.keyError "0")
  | _ => .error .typeError

/-- The Anime entity (abc.py class Anime): one attribute per popped field. -/
structure Anime where
  id : Int
  title : Value
  type : Value
  synonyms : Value
  image : Value
  japanese_title : Value
  status : Value
  episodes : Value
  airing : Value
  air_start : Value
  air_end : Value
  premiered : Value
  broadcast : Value
  synopsis : Value
  producers : Value
  licensors : Value
  studios : Value
  source : Value
  genres : Value
  duration : Value
  link : Value
  rating : Value
  score : Value
  rank : Value
  popularity : Value
  members : Value
  favorites : Value
  related : List PartialMedia

/-- Translation of `Anime.__init__` (abc.py lines 95-141).  Every plain field is a pop with
a null default; the fallible steps are, in source order, the date-range
split, the genre normalization and the related-entity resolution.  The
second component of the result is the caller-visible payload after
construction (the nested relation records, shared by reference, have been
tagged in place). -/
def Anime.init (anime_id : Int) (kw : Assoc) : Except PyError (Anime × Assoc) :=
  match splitDate (lookupD kw "aired_string") with
  | .error e => .error e
  | .ok (air_start, air_end) =>
      match genresOf (genreChoice kw) with
      | .error e => .error e
      | .ok genres =>
          match buildRelated (lookupD kw "related") with
          | .error e => .error e
          | .ok (related, relatedPost) =>
              .ok ({ id := anime_id
                   , title := lookupD kw "title"
                   , type := lookupD kw "type"
                   , synonyms := lookupD kw "title_synonyms"
                   , image := lookupD kw "image_url"
                   , japanese_title := lookupD kw "title_japanese"
                   , status := lookupD kw "status"
                   , episodes := lookupD kw "episodes"
                   , airing := lookupD kw "airing"
                   , air_start := air_start
                   , air_end := air_end
                   , premiered := lookupD kw "premiered"
                   , broadcast := lookupD kw "broadcast"
                   , synopsis := lookupD kw "synopsis"
                   , producers := lookupD kw "producer"
                   , licensors := lookupD kw "licensor"
                   , studios := lookupD kw "studio"
                   , source := lookupD kw "source"
                   , genres := genres
                   , duration := lookupD kw "duration"
                   , link := lookupD kw "link_canonical"
                   , rating := lookupD kw "rating"
                   , score := lookupD kw "score"
                   , rank := lookupD kw "rank"
                   , popularity := lookupD kw "popularity"
                   , members := lookupD kw "members"
                   , favorites := lookupD kw "favorites"
                   , related := related }
                  , setA kw "related" relatedPost)

/-- The Manga entity (abc.py class Manga). -/
structure Manga where
  id : Int
  title : Value
  type : Value
  synonyms : Value
  image : Value
  japanese_title : Value
  status : Value
  volumes : Value
  chapters : Value
  publishing : Value
  synopsis : Value
  publish_start : Value
  publish_end : Value
  author : PartialPerson
  genres : Value
  serialization : Value
  link : Value
  score : Value
  rank : Value
  popularity : Value
  members : Value
  favorites : Value
  related : List PartialMedia

/-- Translation of `Manga.__init__` (abc.py lines 220-263).  Fallible steps in source
order: the published date-range split, the author resolution, the genre
normalization, the first-element access on `serialization`, and the
related-entity resolution.  The second component is the caller-visible
payload after construction (author record and relation records mutated in
place). -/
def Manga.init (manga_id : Int) (kw : Assoc) : Except PyError (Manga × Assoc) :=
  match splitDate (lookupD kw "published_string") with
  | .error e => .error e
  | .ok (publish_start, publish_end) =>
      match buildAuthor (lookupD kw "author") with
      | .error e => .error e
      | .ok (author, authorPost) =>
          match genresOf (genreChoice kw) with
          | .error e => .error e
          | .ok genres =>
              match firstItem (lookupD kw "serialization") with
              | .error e => .error e
              | .ok serialization =>
                  match buildRelated (lookupD kw "related") with
                  | .error e => .error e
                  | .ok (related, relatedPost) =>
                      .ok ({ id := manga_id
                           , title := lookupD kw "title"
                           , type := lookupD kw "type"
                           , synonyms := lookupD kw "title_synonyms"
                           , image := lookupD kw "image_url"
                           , japanese_title := lookupD kw "title_japanese"
                           , status := lookupD kw "status"
                           , volumes := lookupD kw "volumes"
                           , chapters := lookupD kw "chapters"
                           , publishing := lookupD kw "publishing"
                           , synopsis := lookupD kw "synopsis"
                           , publish_start := publish_start
                           , publish_end := publish_end
                           , author := author
                           , genres := genres
                           , serialization := serialization
                           , link := lookupD kw "link_canonical"
                           , score := lookupD kw "score"
                           , rank := lookupD kw "rank"
                           , popularity := lookupD kw "popularity"
                           , members := lookupD kw "members"
                           , favorites := lookupD kw "favorites"
                           , related := related }
                          , setA (setA kw "author" authorPost) "related" relatedPost)

/-- The Character entity (abc.py class Character). -/
structure Character where
  id : Int
  link : Value
  name : Value
  image : Value
  favorites : Value
  animeography : List PartialMedia
  mangaography : List PartialMedia
  japanese_name : Value
  about : Value
  voice_actors : Value

/-- Translation of `Character.__init__` (abc.py lines 303-326).  Fallible steps in source
order: the animeography resolution, then the mangaography resolution.  The
second component is the caller-visible payload after construction (the
appearance records, shared by reference, have been enriched with `id` in
place). -/
def Character.init (char_id : Int) (kw : Assoc) : Except PyError (Character × Assoc) :=
  match buildOgraphyV .anime (lookupD kw "animeography") with
  | .error e => .error e
  | .ok (aog, aogPost) =>
      match buildOgraphyV .manga (lookupD kw "mangaography") with
      | .error e => .error e
      | .ok (mog, mogPost) =>
          .ok ({ id := char_id
               , link := lookupD kw "link_canonical"
               , name := lookupD kw "name"
               , image := lookupD kw "image_url"
               , favorites := lookupD kw "member_favorites"
               , animeography := aog
               , mangaography := mog
               , japanese_name := lookupD kw "name_kanji"
               , about := lookupD kw "about"
               , voice_actors := lookupD kw "voice_actors" }
              , setA (setA kw "animeography" aogPost) "mangaography" mogPost)

/-- The Person entity (abc.py class Person). -/
structure Person where
  id : Int
  link : Value
  name : Value
  image : Value
  favorites : Value
  anime : Value
  manga : Value
  birthday : Value
  more : Value
  website : Value
  voice_acting : Value

/-- Translation of `Person.__init__` (abc.py lines 366-377): every field is a pop with a
null default — no fallible step anywhere, and no nested record is touched,
so the caller-visible payload is returned unchanged. -/
def Person.init (person_id : Int) (kw : Assoc) : Except PyError (Person × Assoc) :=
  .ok ({ id := person_id
       , link := lookupD kw "link_canonical"
       , name := lookupD kw "name"
       , image := lookupD kw "image_url"
       , favorites := lookupD kw "member_favorites"
       , anime := lookupD kw "anime_staff_position"
       , manga := lookupD kw "published_manga"
       , birthday := lookupD kw "birthday"
       , more := lookupD kw "more"
       , website := lookupD kw "website"
       , voice_acting := lookupD kw "voice_acting_role" }
      , kw)

/-- Whether a constructor run succeeded. -/
def isOkE {α : Type} : Except PyError α → Bool
  | .ok _ => true
  | .error _ => false

/-- Remove every entry with key `k`: the payload that omits the field `k`. -/
def eraseK (k : String) (kw : Assoc) : Assoc :=
  kw.filter fun p => !(p.1 == k)

instance : Inhabited Value := ⟨.null⟩

instance : Inhabited RefKind := ⟨.anime⟩

instance : Inhabited PartialPerson := ⟨⟨.null, .null, .null⟩⟩

instance : Inhabited Anime :=
  ⟨{ id := 0, title := .null, type := .null, synonyms := .null, image := .null
   , japanese_title := .null, status := .null, episodes := .null, airing := .null
   , air_start := .null, air_end := .null, premiered := .null, broadcast := .null
   , synopsis := .null, producers := .null, licensors := .null, studios := .null
   , source := .null, genres := .null, duration := .null, link := .null
   , rating := .null, score := .null, rank := .null, popularity := .null
   , members := .null, favorites := .null, related := [] }⟩

instance : Inhabited Manga :=
  ⟨{ id := 0, title := .null, type := .null, synonyms := .null, image := .null
   , japanese_title := .null, status := .null, volumes := .null, chapters := .null
   , publishing := .null, synopsis := .null, publish_start := .null
   , publish_end := .null, author := default, genres := .null
   , serialization := .null, link := .null, score := .null, rank := .null
   , popularity := .null, members := .null, favorites := .null, related := [] }⟩

instance : Inhabited Character :=
  ⟨{ id := 0, link := .null, name := .null, image := .null, favorites := .null
   , animeography := [], mangaography := [], japanese_name := .null
   , about := .null, voice_actors := .null }⟩

instance : Inhabited Person :=
  ⟨{ id := 0, link := .null, name := .null, image := .null, favorites := .null
   , anime := .null, manga := .null, birthday := .null, more := .null
   , website := .null, voice_acting := .null }⟩

/-- The entity a successful constructor run produced (a default dummy on
failure; only ever evaluated on concrete succeeding runs). -/
def entOf {α : Type} [Inhabited α] (e : Except PyError (α × Assoc)) : α :=
  (e.toOption.map Prod.fst).getD default

/-- The caller-visible payload a successful constructor run left behind. -/
def postOf {α : Type} (e : Except PyError (α × Assoc)) : Assoc :=
  (e.toOption.map Prod.snd).getD []

/-- A minimal payload on which Anime construction succeeds: a separator-free
date string and an empty related mapping; every optional field is omitted. -/
def minimalAnimePayload : Assoc :=
  [("aired_string", .str "x"), ("related", .obj [])]

/-- An Anime payload whose date string contains the separator " to " twice. -/
def airedTwicePayload : Assoc :=
  [("aired_string", .str "Jan 1, 2000 to Feb 1, 2000 to ?"), ("related", .obj [])]

/-- An Anime payload with the date string of the spec's worked example. -/
def airedOncePayload : Assoc :=
  [("aired_string", .str "Apr 3, 2020 to ?"), ("related", .obj [])]

/-- An Anime payload whose `genre` key is present but maps to an empty list. -/
def emptyGenrePayload : Assoc :=
  [("aired_string", .str "x"), ("genre", .arr []), ("related", .obj [])]

/-- An Anime payload with the genre list of the spec's worked example. -/
def genreListPayload : Assoc :=
  [("aired_string", .str "x"),
   ("genre", .arr [.obj [("name", .str "Action")], .obj [("name", .str "Drama")]]),
   ("related", .obj [])]

/-- An Anime payload with the related mapping of the spec's worked example. -/
def sequelPayload : Assoc :=
  [("aired_string", .str "x"),
   ("related", .obj [("Sequel", .arr
      [.obj [("type", .str "anime"),
             ("url", .str "https://myanimelist.net/anime/5/Name"),
             ("title", .str "Name")]])])]

/-- A minimal payload on which Manga construction succeeds. -/
def mangaAuthorPayload : Assoc :=
  [("published_string", .str "Jan 1, 2000 to ?"),
   ("author", .arr [.obj [("url", .str "https://myanimelist.net/people/1883/Name"),
                          ("name", .str "Author Name")]]),
   ("serialization", .arr [.str "Magazine"]),
   ("related", .obj [])]

/-- A minimal payload on which Character construction succeeds, with one
appearance record that carries no `id` key of its own. -/
def charOgraphyPayload : Assoc :=
  [("animeography", .arr [.obj [("url", .str "https://myanimelist.net/anime/7/X"),
                                ("name", .str "X")]]),
   ("mangaography", .arr [])]

/-- Whether the first animeography record of a payload carries an `id` key:
distinguishes a payload before Character construction from the caller-visible
payload after it. -/
def ogFirstHasId (kw : Assoc) : Bool :=
  match lookupD kw "animeography" with
  | .arr (.obj fs :: _) => hasKey fs "id"
  | _ => false

theorem lookupD_of_hasKey_false {kw : Assoc} {k : String} (h : hasKey kw k = false) :
    lookupD kw k = .null := by
  induction kw with
  | nil => rfl
  | cons p rest ih =>
    obtain ⟨k', v⟩ := p
    simp only [hasKey, Bool.or_eq_false_iff] at h
    simp only [lookupD, h.1, if_false]
    exact ih h.2

theorem lookupD_setA_self (kw : Assoc) (k : String) (v : Value) :
    lookupD (setA kw k v) k = v := by
  induction kw with
  | nil => simp [setA, lookupD]
  | cons p rest ih =>
    obtain ⟨k', v'⟩ := p
    by_cases h : (k' == k) = true
    · simp [setA, h, lookupD]
    · simp only [Bool.not_eq_true] at h
      simp [setA, h, lookupD, ih]

theorem lookupD_setA_ne (kw : Assoc) (k' : String) (v : Value) (k : String)
    (h : (k' == k) = false) : lookupD (setA kw k' v) k = lookupD kw k := by
  induction kw with
  | nil => simp [setA, lookupD, h]
  | cons p rest ih =>
    obtain ⟨k0, v0⟩ := p
    by_cases h0 : (k0 == k') = true
    · have hk : k0 = k' := by simpa using h0
      subst hk
      simp [setA, lookupD, h]
    · simp only [Bool.not_eq_true] at h0
      simp [setA, h0, lookupD, ih]

theorem hasKey_setA_ne (kw : Assoc) (k' : String) (v : Value) (k : String)
    (h : (k' == k) = false) : hasKey (setA kw k' v) k = hasKey kw k := by
  induction kw with
  | nil => simp [setA, hasKey, h]
  | cons p rest ih =>
    obtain ⟨k0, v0⟩ := p
    by_cases h0 : (k0 == k') = true
    · have hk : k0 = k' := by simpa using h0
      subst hk
      simp [setA, hasKey, h]
    · simp only [Bool.not_eq_true] at h0
      simp [setA, h0, hasKey, ih]

theorem setA_setA_same (kw : Assoc) (k : String) (v : Value) :
    setA (setA kw k v) k v = setA kw k v := by
  induction kw with
  | nil => simp [setA]
  | cons p rest ih =>
    obtain ⟨k0, v0⟩ := p
    by_cases h0 : (k0 == k) = true
    · simp [setA, h0]
    · simp only [Bool.not_eq_true] at h0
      simp [setA, h0, ih]

theorem lookupD_eraseK_ne (kw : Assoc) (kGone k : String)
    (h : (k == kGone) = false) : lookupD (eraseK kGone kw) k = lookupD kw k := by
  have hne : k ≠ kGone := by simpa [beq_eq_false_iff_ne] using h
  induction kw with
  | nil => rfl
  | cons p rest ih =>
    obtain ⟨k0, v0⟩ := p
    simp only [eraseK, List.filter_cons] at ih ⊢
    by_cases h0 : k0 = kGone
    · have hgk : (kGone == k) = false := beq_eq_false_iff_ne.mpr (Ne.symm hne)
      simp only [h0, beq_self_eq_true, Bool.not_true, Bool.false_eq_true, if_false]
      rw [ih]
      simp [lookupD, hgk]
    · have h1 : (!(k0 == kGone)) = true := by simp [h0]
      simp only [h1, if_true]
      simp only [lookupD]
      by_cases hk0 : (k0 == k) = true
      · simp [hk0]
      · simp only [Bool.not_eq_true] at hk0
        simp [hk0, ih]

theorem hasKey_eraseK_self (kw : Assoc) (k : String) :
    hasKey (eraseK k kw) k = false := by
  induction kw with
  | nil => rfl
  | cons p rest ih =>
    obtain ⟨k0, v0⟩ := p
    simp only [eraseK, List.filter_cons] at ih ⊢
    by_cases h0 : k0 = k
    · simp only [h0, beq_self_eq_true, Bool.not_true, Bool.false_eq_true, if_false]
      exact ih
    · have h1 : (!(k0 == k)) = true := by simp [h0]
      simp only [h1, if_true, hasKey]
      simp [h0, ih]

@[simp] theorem ok_bind {α β : Type} (a : α) (f : α → Except PyError β) :
    (Except.ok a : Except PyError α) >>= f = f a := rfl

@[simp] theorem error_bind {α β : Type} (e : PyError) (f : α → Except PyError β) :
    (Except.error e : Except PyError α) >>= f = .error e := rfl

theorem splitDate_null : splitDate .null = .error .typeError := rfl

theorem splitDate_two {s x y : String} (h : pySplit " to " s = [x, y]) :
    splitDate (.str s) = .ok (.str x, .str y) := by
  simp [splitDate, containsTo, containsSub, h]

theorem splitDate_noSep {s : String} (h : containsSub " to " s = false) :
    splitDate (.str s) = .ok (.str s, .null) := by
  simp [splitDate, containsTo, h]

theorem splitDate_many {s x y z : String} {rest : List String}
    (h : pySplit " to " s = x :: y :: z :: rest) :
    splitDate (.str s) = .error .valueError := by
  simp [splitDate, containsTo, containsSub, h]

theorem anime_init_ok_inv {aid : Int} {kw : Assoc} {a : Anime} {post : Assoc}
    (h : Anime.init aid kw = .ok (a, post)) :
    ∃ ss se g rel rpost,
      splitDate (lookupD kw "aired_string") = .ok (ss, se) ∧
      genresOf (genreChoice kw) = .ok g ∧
      buildRelated (lookupD kw "related") = .ok (rel, rpost) ∧
      a = { id := aid
          , title := lookupD kw "title"
          , type := lookupD kw "type"
          , synonyms := lookupD kw "title_synonyms"
          , image := lookupD kw "image_url"
          , japanese_title := lookupD kw "title_japanese"
          , status := lookupD kw "status"
          , episodes := lookupD kw "episodes"
          , airing := lookupD kw "airing"
          , air_start := ss
          , air_end := se
          , premiered := lookupD kw "premiered"
          , broadcast := lookupD kw "broadcast"
          , synopsis := lookupD kw "synopsis"
          , producers := lookupD kw "producer"
          , licensors := lookupD kw "licensor"
          , studios := lookupD kw "studio"
          , source := lookupD kw "source"
          , genres := g
          , duration := lookupD kw "duration"
          , link := lookupD kw "link_canonical"
          , rating := lookupD kw "rating"
          , score := lookupD kw "score"
          , rank := lookupD kw "rank"
          , popularity := lookupD kw "popularity"
          , members := lookupD kw "members"
          , favorites := lookupD kw "favorites"
          , related := rel } ∧
      post = setA kw "related" rpost := by
  unfold Anime.init at h
  split at h
  · exact absurd h (by simp)
  · rename_i ss se h1
    split at h
    · exact absurd h (by simp)
    · rename_i g h2
      split at h
      · exact absurd h (by simp)
      · rename_i rel rpost h3
        simp only [Except.ok.injEq, Prod.mk.injEq] at h
        obtain ⟨ha, hp⟩ := h
        exact ⟨ss, se, g, rel, rpost, h1, h2, h3, ha.symm, hp.symm⟩

theorem anime_init_isOkE (aid : Int) (kw : Assoc) :
    isOkE (Anime.init aid kw) =
      (isOkE (splitDate (lookupD kw "aired_string")) &&
       isOkE (genresOf (genreChoice kw)) &&
       isOkE (buildRelated (lookupD kw "related"))) := by
  cases h1 : splitDate (lookupD kw "aired_string") with
  | error e => simp [Anime.init, h1, isOkE]
  | ok p =>
    obtain ⟨ss, se⟩ := p
    cases h2 : genresOf (genreChoice kw) with
    | error e => simp [Anime.init, h1, h2, isOkE]
    | ok g =>
      cases h3 : buildRelated (lookupD kw "related") with
      | error e => simp [Anime.init, h1, h2, h3, isOkE]
      | ok q =>
        obtain ⟨rel, rpost⟩ := q
        simp [Anime.init, h1, h2, h3, isOkE]

theorem manga_init_ok_inv {mid : Int} {kw : Assoc} {m : Manga} {post : Assoc}
    (h : Manga.init mid kw = .ok (m, post)) :
    ∃ ss se author apost g ser rel rpost,
      splitDate (lookupD kw "published_string") = .ok (ss, se) ∧
      buildAuthor (lookupD kw "author") = .ok (author, apost) ∧
      genresOf (genreChoice kw) = .ok g ∧
      firstItem (lookupD kw "serialization") = .ok ser ∧
      buildRelated (lookupD kw "related") = .ok (rel, rpost) ∧
      m = { id := mid
          , title := lookupD kw "title"
          , type := lookupD kw "type"
          , synonyms := lookupD kw "title_synonyms"
          , image := lookupD kw "image_url"
          , japanese_title := lookupD kw "title_japanese"
          , status := lookupD kw "status"
          , volumes := lookupD kw "volumes"
          , chapters := lookupD kw "chapters"
          , publishing := lookupD kw "publishing"
          , synopsis := lookupD kw "synopsis"
          , publish_start := ss
          , publish_end := se
          , author := author
          , genres := g
          , serialization := ser
          , link := lookupD kw "link_canonical"
          , score := lookupD kw "score"
          , rank := lookupD kw "rank"
          , popularity := lookupD kw "popularity"
          , members := lookupD kw "members"
          , favorites := lookupD kw "favorites"
          , related := rel } ∧
      post = setA (setA kw "author" apost) "related" rpost := by
  unfold Manga.init at h
  split at h
  · exact absurd h (by simp)
  · rename_i ss se h1
    split at h
    · exact absurd h (by simp)
    · rename_i author apost h2
      split at h
      · exact absurd h (by simp)
      · rename_i g h3
        split at h
        · exact absurd h (by simp)
        · rename_i ser h4
          split at h
          · exact absurd h (by simp)
          · rename_i rel rpost h5
            simp only [Except.ok.injEq, Prod.mk.injEq] at h
            obtain ⟨hm, hp⟩ := h
            exact ⟨ss, se, author, apost, g, ser, rel, rpost,
                   h1, h2, h3, h4, h5, hm.symm, hp.symm⟩

theorem manga_init_isOkE (mid : Int) (kw : Assoc) :
    isOkE (Manga.init mid kw) =
      (isOkE (splitDate (lookupD kw "published_string")) &&
       isOkE (buildAuthor (lookupD kw "author")) &&
       isOkE (genresOf (genreChoice kw)) &&
       isOkE (firstItem (lookupD kw "serialization")) &&
       isOkE (buildRelated (lookupD kw "related"))) := by
  cases h1 : splitDate (lookupD kw "published_string") with
  | error e => simp [Manga.init, h1, isOkE]
  | ok p =>
    obtain ⟨ss, se⟩ := p
    cases h2 : buildAuthor (lookupD kw "author") with
    | error e => simp [Manga.init, h1, h2, isOkE]
    | ok q =>
      obtain ⟨author, apost⟩ := q
      cases h3 : genresOf (genreChoice kw) with
      | error e => simp [Manga.init, h1, h2, h3, isOkE]
      | ok g =>
        cases h4 : firstItem (lookupD kw "serialization") with
        | error e => simp [Manga.init, h1, h2, h3, h4, isOkE]
        | ok ser =>
          cases h5 : buildRelated (lookupD kw "related") with
          | error e => simp [Manga.init, h1, h2, h3, h4, h5, isOkE]
          | ok r =>
            obtain ⟨rel, rpost⟩ := r
            simp [Manga.init, h1, h2, h3, h4, h5, isOkE]

theorem character_init_ok_inv {cid : Int} {kw : Assoc} {c : Character} {post : Assoc}
    (h : Character.init cid kw = .ok (c, post)) :
    ∃ aog aogPost mog mogPost,
      buildOgraphyV .anime (lookupD kw "animeography") = .ok (aog, aogPost) ∧
      buildOgraphyV .manga (lookupD kw "mangaography") = .ok (mog, mogPost) ∧
      c = { id := cid
          , link := lookupD kw "link_canonical"
          , name := lookupD kw "name"
          , image := lookupD kw "image_url"
          , favorites := lookupD kw "member_favorites"
          , animeography := aog
          , mangaography := mog
          , japanese_name := lookupD kw "name_kanji"
          , about := lookupD kw "about"
          , voice_actors := lookupD kw "voice_actors" } ∧
      post = setA (setA kw "animeography" aogPost) "mangaography" mogPost := by
  unfold Character.init at h
  split at h
  · exact absurd h (by simp)
  · rename_i aog aogPost h1
    split at h
    · exact absurd h (by simp)
    · rename_i mog mogPost h2
      simp only [Except.ok.injEq, Prod.mk.injEq] at h
      obtain ⟨hc, hp⟩ := h
      exact ⟨aog, aogPost, mog, mogPost, h1, h2, hc.symm, hp.symm⟩

theorem character_init_isOkE (cid : Int) (kw : Assoc) :
    isOkE (Character.init cid kw) =
      (isOkE (buildOgraphyV .anime (lookupD kw "animeography")) &&
       isOkE (buildOgraphyV .manga (lookupD kw "mangaography"))) := by
  cases h1 : buildOgraphyV RefKind.anime (lookupD kw "animeography") with
  | error e => simp [Character.init, h1, isOkE]
  | ok p =>
    obtain ⟨aog, aogPost⟩ := p
    cases h2 : buildOgraphyV RefKind.manga (lookupD kw "mangaography") with
    | error e => simp [Character.init, h1, h2, isOkE]
    | ok q =>
      obtain ⟨mog, mogPost⟩ := q
      simp [Character.init, h1, h2, isOkE]

theorem hasKey_setA_self (kw : Assoc) (k : String) (v : Value) :
    hasKey (setA kw k v) k = true := by
  induction kw with
  | nil => simp [setA, hasKey]
  | cons p rest ih =>
    obtain ⟨k0, v0⟩ := p
    by_cases h0 : (k0 == k) = true
    · simp [setA, h0, hasKey]
    · simp only [Bool.not_eq_true] at h0
      simp [setA, h0, hasKey, ih]

theorem setA_already {kw : Assoc} {k : String} {v : Value}
    (hk : hasKey kw k = true) (hv : lookupD kw k = v) : setA kw k v = kw := by
  induction kw with
  | nil => simp [hasKey] at hk
  | cons p rest ih =>
    obtain ⟨k0, v0⟩ := p
    by_cases h0 : (k0 == k) = true
    · simp only [lookupD, h0, if_true] at hv
      simp [setA, h0, hv]
    · simp only [Bool.not_eq_true] at h0
      simp only [hasKey, h0, Bool.false_or] at hk
      simp only [lookupD, h0, Bool.false_eq_true, if_false] at hv
      simp [setA, h0, ih hk hv]

theorem getItem_setA_ne (fs : Assoc) (k' : String) (v : Value) (k : String)
    (h : (k' == k) = false) :
    getItem (.obj (setA fs k' v)) k = getItem (.obj fs) k := by
  simp [getItem, hasKey_setA_ne fs k' v k h, lookupD_setA_ne fs k' v k h]

theorem buildRelGroup_idem {rt : String} {recs recs' : List Value}
    {refs : List PartialMedia} (h : buildRelGroup rt recs = .ok (refs, recs')) :
    buildRelGroup rt recs' = .ok (refs, recs') := by
  induction recs generalizing recs' refs with
  | nil =>
    simp only [buildRelGroup, Except.ok.injEq, Prod.mk.injEq] at h
    obtain ⟨h1, h2⟩ := h
    subst h1; subst h2
    rfl
  | cons rec rest ih =>
    cases rec with
    | obj fs =>
      simp only [buildRelGroup] at h
      cases hc : create_relation (Value.obj (setA fs "relation" (.str rt))) with
      | error e => rw [hc] at h; simp at h
      | ok ref =>
        rw [hc] at h
        cases hr : buildRelGroup rt rest with
        | error e => rw [hr] at h; simp at h
        | ok pr =>
          obtain ⟨refsR, recsR⟩ := pr
          rw [hr] at h
          simp only [ok_bind, Except.ok.injEq, Prod.mk.injEq] at h
          obtain ⟨h1, h2⟩ := h
          subst h1; subst h2
          simp only [buildRelGroup, setA_setA_same, hc, ok_bind, ih hr]
    | null => simp [buildRelGroup] at h
    | bool b => simp [buildRelGroup] at h
    | int n => simp [buildRelGroup] at h
    | str s => simp [buildRelGroup] at h
    | arr xs => simp [buildRelGroup] at h

theorem buildRelatedEntries_idem {entries entries' : List (String × Value)}
    {refs : List PartialMedia}
    (h : buildRelatedEntries entries = .ok (refs, entries')) :
    buildRelatedEntries entries' = .ok (refs, entries') := by
  induction entries generalizing entries' refs with
  | nil =>
    simp only [buildRelatedEntries, Except.ok.injEq, Prod.mk.injEq] at h
    obtain ⟨h1, h2⟩ := h
    subst h1; subst h2
    rfl
  | cons p rest ih =>
    obtain ⟨rt, v⟩ := p
    cases v with
    | arr recs =>
      simp only [buildRelatedEntries] at h
      cases hg : buildRelGroup rt recs with
      | error e => rw [hg] at h; simp at h
      | ok pg =>
        obtain ⟨grefs, grecs⟩ := pg
        rw [hg] at h
        cases hr : buildRelatedEntries rest with
        | error e => rw [hr] at h; simp at h
        | ok pr =>
          obtain ⟨rrefs, rout⟩ := pr
          rw [hr] at h
          simp only [ok_bind, Except.ok.injEq, Prod.mk.injEq] at h
          obtain ⟨h1, h2⟩ := h
          subst h1; subst h2
          simp only [buildRelatedEntries, buildRelGroup_idem hg, ok_bind, ih hr]
    | null => simp [buildRelatedEntries] at h
    | bool b => simp [buildRelatedEntries] at h
    | int n => simp [buildRelatedEntries] at h
    | str s => simp [buildRelatedEntries] at h
    | obj fs => simp [buildRelatedEntries] at h

theorem buildRelated_idem {v v' : Value} {refs : List PartialMedia}
    (h : buildRelated v = .ok (refs, v')) : buildRelated v' = .ok (refs, v') := by
  cases v with
  | obj entries =>
    simp only [buildRelated] at h
    cases he : buildRelatedEntries entries with
    | error e => rw [he] at h; simp at h
    | ok pe =>
      obtain ⟨refs0, entries'⟩ := pe
      rw [he] at h
      simp only [ok_bind, Except.ok.injEq, Prod.mk.injEq] at h
      obtain ⟨h1, h2⟩ := h
      subst h1; subst h2
      simp only [buildRelated, buildRelatedEntries_idem he, ok_bind]
  | null => simp [buildRelated] at h
  | bool b => simp [buildRelated] at h
  | int n => simp [buildRelated] at h
  | str s => simp [buildRelated] at h
  | arr xs => simp [buildRelated] at h

theorem buildOgraphy_idem {kind : RefKind} {recs recs' : List Value}
    {refs : List PartialMedia} (h : buildOgraphy kind recs = .ok (refs, recs')) :
    buildOgraphy kind recs' = .ok (refs, recs') := by
  induction recs generalizing recs' refs with
  | nil =>
    simp only [buildOgraphy, Except.ok.injEq, Prod.mk.injEq] at h
    obtain ⟨h1, h2⟩ := h
    subst h1; subst h2
    rfl
  | cons rec rest ih =>
    cases rec with
    | obj fs =>
      simp only [buildOgraphy] at h
      cases hu : getItem (Value.obj fs) "url" with
      | error e => rw [hu] at h; simp at h
      | ok url =>
        rw [hu] at h
        simp only [ok_bind] at h
        cases hi : parse_id url with
        | error e => rw [hi] at h; simp at h
        | ok i =>
          rw [hi] at h
          simp only [ok_bind] at h
          cases hr : buildOgraphy kind rest with
          | error e => rw [hr] at h; simp at h
          | ok pr =>
            obtain ⟨refsR, recsR⟩ := pr
            rw [hr] at h
            simp only [ok_bind, Except.ok.injEq, Prod.mk.injEq] at h
            obtain ⟨h1, h2⟩ := h
            subst h1; subst h2
            simp only [buildOgraphy, getItem_setA_ne fs "id" (.int i) "url" rfl,
                       hu, ok_bind, hi, setA_setA_same, ih hr]
    | null => simp [buildOgraphy] at h
    | bool b => simp [buildOgraphy] at h
    | int n => simp [buildOgraphy] at h
    | str s => simp [buildOgraphy] at h
    | arr xs => simp [buildOgraphy] at h

theorem buildOgraphyV_idem {kind : RefKind} {v v' : Value} {refs : List PartialMedia}
    (h : buildOgraphyV kind v = .ok (refs, v')) : buildOgraphyV kind v' = .ok (refs, v') := by
  cases v with
  | arr recs =>
    simp only [buildOgraphyV] at h
    cases hr : buildOgraphy kind recs with
    | error e => rw [hr] at h; simp at h
    | ok pr =>
      obtain ⟨refs0, recs'⟩ := pr
      rw [hr] at h
      simp only [ok_bind, Except.ok.injEq, Prod.mk.injEq] at h
      obtain ⟨h1, h2⟩ := h
      subst h1; subst h2
      simp only [buildOgraphyV, buildOgraphy_idem hr, ok_bind]
  | null => simp [buildOgraphyV] at h
  | bool b => simp [buildOgraphyV] at h
  | int n => simp [buildOgraphyV] at h
  | str s => simp [buildOgraphyV] at h
  | obj fs => simp [buildOgraphyV] at h

theorem buildAuthor_idem {v v' : Value} {author : PartialPerson}
    (h : buildAuthor v = .ok (author, v')) : buildAuthor v' = .ok (author, v') := by
  cases v with
  | arr recs =>
    cases recs with
    | nil => simp [buildAuthor] at h
    | cons rec rest =>
      cases rec with
      | obj fs =>
        simp only [buildAuthor] at h
        cases hu : getItem (Value.obj fs) "url" with
        | error e => rw [hu] at h; simp at h
        | ok url =>
          rw [hu] at h
          simp only [ok_bind] at h
          cases hi : parse_id url with
          | error e => rw [hi] at h; simp at h
          | ok i =>
            rw [hi] at h
            simp only [ok_bind, Except.ok.injEq, Prod.mk.injEq] at h
            obtain ⟨h1, h2⟩ := h
            subst h1; subst h2
            simp only [buildAuthor, getItem_setA_ne fs "id" (.int i) "url" rfl,
                       hu, ok_bind, hi, setA_setA_same]
      | null => simp [buildAuthor] at h
      | bool b => simp [buildAuthor] at h
      | int n => simp [buildAuthor] at h
      | str s => simp [buildAuthor] at h
      | arr xs => simp [buildAuthor] at h
  | null => simp [buildAuthor] at h
  | bool b => simp [buildAuthor] at h
  | int n => simp [buildAuthor] at h
  | str s => cases hs : s.isEmpty <;> simp [buildAuthor, hs] at h
  | obj fs => simp [buildAuthor] at h

theorem genresOf_falsy {v : Value} (h : v.truthy = false) : genresOf v = .ok .null := by
  simp [genresOf, h]

theorem genresOf_cons {g0 : Value} {gs : List Value} {names : List Value}
    (h : (g0 :: gs).mapM (fun g => getItem g "name") = .ok names) :
    genresOf (.arr (g0 :: gs)) = .ok (.arr names) := by
  have hd : genresOf (.arr (g0 :: gs))
      = (g0 :: gs).mapM (fun g => getItem g "name") >>= fun ns => .ok (.arr ns) := rfl
  rw [hd, h]
  rfl

/-- C10: the Person constructor is total — for every numeric ID and every
raw mapping (the empty mapping included) construction succeeds, leaves the
payload untouched, and every attribute is the mapping's value for its source
key; `lookupD` returns the null value exactly when the key is absent, so an
omitted field yields a null attribute. -/
theorem C10_person_constructor_total (person_id : Int) (kw : Assoc) :
    Person.init person_id kw =
      .ok ({ id := person_id
           , link := lookupD kw "link_canonical"
           , name := lookupD kw "name"
           , image := lookupD kw "image_url"
           , favorites := lookupD kw "member_favorites"
           , anime := lookupD kw "anime_staff_position"
           , manga := lookupD kw "published_manga"
           , birthday := lookupD kw "birthday"
           , more := lookupD kw "more"
           , website := lookupD kw "website"
           , voice_acting := lookupD kw "voice_acting_role" }, kw) ∧
    (∀ k, hasKey kw k = false → lookupD kw k = .null) :=
  ⟨rfl, fun _ h => lookupD_of_hasKey_false h⟩

/-- Witness for C10 at a concrete input: the empty payload hydrates to an
all-null Person and the payload comes back unchanged. -/
theorem C10_person_constructor_total_witness :
    Person.init 42 [] =
      .ok ({ id := 42, link := .null, name := .null, image := .null
           , favorites := .null, anime := .null, manga := .null
           , birthday := .null, more := .null, website := .null
           , voice_acting := .null }, []) ∧
    lookupD ([] : Assoc) "name" = .null :=
  ⟨(C10_person_constructor_total 42 []).1, (C10_person_constructor_total 42 []).2 "name" rfl⟩

/-- C5: a payload with no `aired_string` (resp. `published_string`) key makes
Anime (resp. Manga) construction fail with the uncontrolled error of testing
`" to " in None` — the split is attempted unconditionally on the null
default. -/
theorem C5_missing_date_field_fails (aid mid : Int) (kwA kwM : Assoc)
    (hA : hasKey kwA "aired_string" = false)
    (hM : hasKey kwM "published_string" = false) :
    Anime.init aid kwA = .error .typeError ∧
    Manga.init mid kwM = .error .typeError := by
  constructor
  · have h0 : lookupD kwA "aired_string" = .null := lookupD_of_hasKey_false hA
    simp [Anime.init, h0, splitDate_null]
  · have h0 : lookupD kwM "published_string" = .null := lookupD_of_hasKey_false hM
    simp [Manga.init, h0, splitDate_null]

/-- Witness for C5 at a concrete input: the empty payload. -/
theorem C5_missing_date_field_fails_witness :
    Anime.init 1 [] = .error .typeError ∧ Manga.init 2 [] = .error .typeError :=
  C5_missing_date_field_fails 1 2 [] [] rfl rfl

/-- Counterexample to C1 as stated: this date string contains the separator
" to " (twice), yet construction does not set the start/end attributes — it
fails outright, because the three-way split cannot be unpacked into two
variables. -/
theorem C1_counterexample :
    containsSub " to " "Jan 1, 2000 to Feb 1, 2000 to ?" = true ∧
    Anime.init 1 airedTwicePayload = .error .valueError :=
  ⟨rfl, rfl⟩

/-- C1 (amended): when the date-range string splits into exactly two parts on
" to ", a successful construction sets start/end to the parts before/after
the separator; when the string lacks the separator, start is the whole
string and end is null; when the split has three or more parts, construction
fails with an (untyped) unpacking error.  Stated for Anime and Manga. -/
theorem C1_date_range_split (aid mid : Int) (kwA kwM : Assoc) :
    (∀ s x y a post, lookupD kwA "aired_string" = .str s →
       pySplit " to " s = [x, y] → Anime.init aid kwA = .ok (a, post) →
       a.air_start = .str x ∧ a.air_end = .str y) ∧
    (∀ s a post, lookupD kwA "aired_string" = .str s →
       containsSub " to " s = false → Anime.init aid kwA = .ok (a, post) →
       a.air_start = .str s ∧ a.air_end = .null) ∧
    (∀ s x y z rest, lookupD kwA "aired_string" = .str s →
       pySplit " to " s = x :: y :: z :: rest →
       Anime.init aid kwA = .error .valueError) ∧
    (∀ s x y m post, lookupD kwM "published_string" = .str s →
       pySplit " to " s = [x, y] → Manga.init mid kwM = .ok (m, post) →
       m.publish_start = .str x ∧ m.publish_end = .str y) ∧
    (∀ s m post, lookupD kwM "published_string" = .str s →
       containsSub " to " s = false → Manga.init mid kwM = .ok (m, post) →
       m.publish_start = .str s ∧ m.publish_end = .null) ∧
    (∀ s x y z rest, lookupD kwM "published_string" = .str s →
       pySplit " to " s = x :: y :: z :: rest →
       Manga.init mid kwM = .error .valueError) := by
  refine ⟨?_, ?_, ?_, ?_, ?_, ?_⟩
  · intro s x y a post hs hsplit hinit
    obtain ⟨ss, se, g, rel, rpost, h1, _, _, ha, _⟩ := anime_init_ok_inv hinit
    rw [hs, splitDate_two hsplit] at h1
    simp only [Except.ok.injEq, Prod.mk.injEq] at h1
    obtain ⟨hss, hse⟩ := h1
    subst ha
    exact ⟨hss.symm, hse.symm⟩
  · intro s a post hs hnosep hinit
    obtain ⟨ss, se, g, rel, rpost, h1, _, _, ha, _⟩ := anime_init_ok_inv hinit
    rw [hs, splitDate_noSep hnosep] at h1
    simp only [Except.ok.injEq, Prod.mk.injEq] at h1
    obtain ⟨hss, hse⟩ := h1
    subst ha
    exact ⟨hss.symm, hse.symm⟩
  · intro s x y z rest hs hsplit
    simp [Anime.init, hs, splitDate_many hsplit]
  · intro s x y m post hs hsplit hinit
    obtain ⟨ss, se, au, ap, g, ser, rel, rpost, h1, _, _, _, _, hm, _⟩ :=
      manga_init_ok_inv hinit
    rw [hs, splitDate_two hsplit] at h1
    simp only [Except.ok.injEq, Prod.mk.injEq] at h1
    obtain ⟨hss, hse⟩ := h1
    subst hm
    exact ⟨hss.symm, hse.symm⟩
  · intro s m post hs hnosep hinit
    obtain ⟨ss, se, au, ap, g, ser, rel, rpost, h1, _, _, _, _, hm, _⟩ :=
      manga_init_ok_inv hinit
    rw [hs, splitDate_noSep hnosep] at h1
    simp only [Except.ok.injEq, Prod.mk.injEq] at h1
    obtain ⟨hss, hse⟩ := h1
    subst hm
    exact ⟨hss.symm, hse.symm⟩
  · intro s x y z rest hs hsplit
    simp [Manga.init, hs, splitDate_many hsplit]

/-- Witness for the amended C1 at the spec's worked example
"Apr 3, 2020 to ?" (Anime) and a separator-free Manga date string. -/
theorem C1_date_range_split_witness :
    (entOf (Anime.init 1 airedOncePayload)).air_start = .str "Apr 3, 2020" ∧
    (entOf (Anime.init 1 airedOncePayload)).air_end = .str "?" ∧
    (entOf (Manga.init 2 mangaAuthorPayload)).publish_start = .str "Jan 1, 2000" ∧
    (entOf (Manga.init 2 mangaAuthorPayload)).publish_end = .str "?" := by
  have hA := (C1_date_range_split 1 2 airedOncePayload mangaAuthorPayload).1
    "Apr 3, 2020 to ?" "Apr 3, 2020" "?"
    (entOf (Anime.init 1 airedOncePayload)) (postOf (Anime.init 1 airedOncePayload))
    rfl rfl rfl
  have hM := (C1_date_range_split 1 2 airedOncePayload mangaAuthorPayload).2.2.2.1
    "Jan 1, 2000 to ?" "Jan 1, 2000" "?"
    (entOf (Manga.init 2 mangaAuthorPayload)) (postOf (Manga.init 2 mangaAuthorPayload))
    rfl rfl rfl
  exact ⟨hA.1, hA.2, hM.1, hM.2⟩

/-- Counterexample to C3 as stated: a payload whose `genre` key is present
(an empty list) still hydrates with a null `genres` attribute, so genres is
not null *only* when both spellings are omitted. -/
theorem C3_counterexample :
    hasKey emptyGenrePayload "genre" = true ∧
    (Anime.init 1 emptyGenrePayload).toOption.map (fun r => r.1.genres)
      = some Value.null :=
  ⟨rfl, rfl⟩

/-- C3 (amended): the genres attribute is computed from the `genre` value
when that value is non-null, else from the `genres` value (`genreChoice`);
it is null exactly when the selected value is falsy (null — both keys
absent included — or empty list, and so on), and for a truthy (non-empty)
record list it is the list of each record's `name` attribute.  Stated for
Anime and Manga. -/
theorem C3_genres_normalization (aid mid : Int) (kwA kwM : Assoc) :
    (∀ a post, Anime.init aid kwA = .ok (a, post) →
       (Value.truthy (genreChoice kwA) = false → a.genres = .null) ∧
       (∀ g0 gs names, genreChoice kwA = .arr (g0 :: gs) →
          (g0 :: gs).mapM (fun g => getItem g "name") = .ok names →
          a.genres = .arr names)) ∧
    (∀ m post, Manga.init mid kwM = .ok (m, post) →
       (Value.truthy (genreChoice kwM) = false → m.genres = .null) ∧
       (∀ g0 gs names, genreChoice kwM = .arr (g0 :: gs) →
          (g0 :: gs).mapM (fun g => getItem g "name") = .ok names →
          m.genres = .arr names)) ∧
    (∀ v, lookupD kwA "genre" = v → v ≠ .null → genreChoice kwA = v) := by
  refine ⟨?_, ?_, ?_⟩
  · intro a post hinit
    obtain ⟨ss, se, g, rel, rpost, _, h2, _, ha, _⟩ := anime_init_ok_inv hinit
    subst ha
    constructor
    · intro hfalsy
      rw [genresOf_falsy hfalsy] at h2
      simp only [Except.ok.injEq] at h2
      exact h2.symm
    · intro g0 gs names hsel hmap
      rw [hsel, genresOf_cons hmap] at h2
      simp only [Except.ok.injEq] at h2
      exact h2.symm
  · intro m post hinit
    obtain ⟨ss, se, au, ap, g, ser, rel, rpost, _, _, h3, _, _, hm, _⟩ :=
      manga_init_ok_inv hinit
    subst hm
    constructor
    · intro hfalsy
      rw [genresOf_falsy hfalsy] at h3
      simp only [Except.ok.injEq] at h3
      exact h3.symm
    · intro g0 gs names hsel hmap
      rw [hsel, genresOf_cons hmap] at h3
      simp only [Except.ok.injEq] at h3
      exact h3.symm
  · intro v hv hne
    unfold genreChoice
    rw [hv]
    cases v with
    | null => exact absurd rfl hne
    | bool b => rfl
    | int n => rfl
    | str s => rfl
    | arr xs => rfl
    | obj fs => rfl

/-- Witness for the amended C3 at the spec's worked example (two genre
records) and at a payload omitting both genre spellings. -/
theorem C3_genres_normalization_witness :
    (entOf (Anime.init 1 genreListPayload)).genres
      = .arr [.str "Action", .str "Drama"] ∧
    (entOf (Anime.init 1 minimalAnimePayload)).genres = .null := by
  have h1 := ((C3_genres_normalization 1 2 genreListPayload genreListPayload).1
    (entOf (Anime.init 1 genreListPayload)) (postOf (Anime.init 1 genreListPayload))
    rfl).2 (.obj [("name", .str "Action")]) [.obj [("name", .str "Drama")]]
    [.str "Action", .str "Drama"] rfl rfl
  have h2 := ((C3_genres_normalization 1 2 minimalAnimePayload minimalAnimePayload).1
    (entOf (Anime.init 1 minimalAnimePayload)) (postOf (Anime.init 1 minimalAnimePayload))
    rfl).1 rfl
  exact ⟨h1, h2⟩

/-- C4: for every successful Anime or Manga construction the related list is
exactly the one the related-entity resolution built from the payload's
`related` mapping — flattened group by group in the mapping's iteration
order, each record first tagged in place with its relation-type label under
the key `relation` and then turned into a reference by the relation factory;
the spec's worked example (a one-record "Sequel" group with an anime URL of
ID 5) yields exactly one Anime-reference with relation "Sequel" and id 5. -/
theorem C4_related_resolution (aid mid : Int) (kwA kwM : Assoc) :
    (∀ a post refs rpost, Anime.init aid kwA = .ok (a, post) →
       buildRelated (lookupD kwA "related") = .ok (refs, rpost) →
       a.related = refs ∧ post = setA kwA "related" rpost) ∧
    (∀ m post refs rpost, Manga.init mid kwM = .ok (m, post) →
       buildRelated (lookupD kwM "related") = .ok (refs, rpost) →
       m.related = refs) ∧
    (∀ rt v rest refs out, buildRelatedEntries ((rt, v) :: rest) = .ok (refs, out) →
       ∀ recs grefs grecs rrefs rout, v = .arr recs →
         buildRelGroup rt recs = .ok (grefs, grecs) →
         buildRelatedEntries rest = .ok (rrefs, rout) →
         refs = grefs ++ rrefs ∧ out = (rt, .arr grecs) :: rout) ∧
    (∀ rt fs rest refs recs, buildRelGroup rt (.obj fs :: rest) = .ok (refs, recs) →
       ∀ ref refsR recsR,
         create_relation (.obj (setA fs "relation" (.str rt))) = .ok ref →
         buildRelGroup rt rest = .ok (refsR, recsR) →
         refs = ref :: refsR ∧ recs = Value.obj (setA fs "relation" (.str rt)) :: recsR) ∧
    ((Anime.init 1 sequelPayload).toOption.map (fun r => r.1.related)
       = some [{ kind := .anime, id := .int 5, name := .str "Name"
               , url := .str "https://myanimelist.net/anime/5/Name"
               , relation := .str "Sequel" }]) := by
  refine ⟨?_, ?_, ?_, ?_, rfl⟩
  · intro a post refs rpost hinit hrel
    obtain ⟨ss, se, g, rel, rpost0, _, _, h3, ha, hp⟩ := anime_init_ok_inv hinit
    rw [h3] at hrel
    simp only [Except.ok.injEq, Prod.mk.injEq] at hrel
    obtain ⟨hr1, hr2⟩ := hrel
    subst ha
    subst hp
    exact ⟨hr1, by rw [hr2]⟩
  · intro m post refs rpost hinit hrel
    obtain ⟨ss, se, au, ap, g, ser, rel, rpost0, _, _, _, _, h5, hm, _⟩ :=
      manga_init_ok_inv hinit
    rw [h5] at hrel
    simp only [Except.ok.injEq, Prod.mk.injEq] at hrel
    subst hm
    exact hrel.1
  · intro rt v rest refs out h recs grefs grecs rrefs rout hv hg hr
    subst hv
    simp only [buildRelatedEntries] at h
    rw [hg] at h
    simp only [ok_bind] at h
    rw [hr] at h
    simp only [ok_bind, Except.ok.injEq, Prod.mk.injEq] at h
    exact ⟨h.1.symm, h.2.symm⟩
  · intro rt fs rest refs recs h ref refsR recsR hc hr
    simp only [buildRelGroup] at h
    rw [hc] at h
    simp only [ok_bind] at h
    rw [hr] at h
    simp only [ok_bind, Except.ok.injEq, Prod.mk.injEq] at h
    exact ⟨h.1.symm, h.2.symm⟩

/-- Witness for C4: the worked example payload, through the general
statement — the related list is the factory output and the caller-visible
mapping carries the tagged record. -/
theorem C4_related_resolution_witness :
    (entOf (Anime.init 1 sequelPayload)).related
      = [{ kind := .anime, id := .int 5, name := .str "Name"
         , url := .str "https://myanimelist.net/anime/5/Name"
         , relation := .str "Sequel" }] ∧
    postOf (Anime.init 1 sequelPayload)
      = setA sequelPayload "related"
          (.obj [("Sequel", .arr
             [.obj [("type", .str "anime"),
                    ("url", .str "https://myanimelist.net/anime/5/Name"),
                    ("title", .str "Name"),
                    ("relation", .str "Sequel")]])]) := by
  have h := (C4_related_resolution 1 2 sequelPayload sequelPayload).1
    (entOf (Anime.init 1 sequelPayload)) (postOf (Anime.init 1 sequelPayload))
    [{ kind := .anime, id := .int 5, name := .str "Name"
     , url := .str "https://myanimelist.net/anime/5/Name"
     , relation := .str "Sequel" }]
    (.obj [("Sequel", .arr
       [.obj [("type", .str "anime"),
              ("url", .str "https://myanimelist.net/anime/5/Name"),
              ("title", .str "Name"),
              ("relation", .str "Sequel")]])])
    rfl rfl
  exact h

/-- C6: a Manga payload with an absent (null) or empty `author` list makes
construction fail, and on every successful construction the author attribute
is the Person reference built from the first author record after that record
is enriched in place with the numeric ID parsed from its `url`. -/
theorem C6_manga_author_resolution (mid : Int) (kw : Assoc) :
    ((lookupD kw "author" = .null ∨ lookupD kw "author" = .arr []) →
       isOkE (Manga.init mid kw) = false) ∧
    (∀ m post fs rest url i, Manga.init mid kw = .ok (m, post) →
       lookupD kw "author" = .arr (.obj fs :: rest) →
       getItem (.obj fs) "url" = .ok url →
       parse_id url = .ok i →
       m.author = PartialPerson.from_author (setA fs "id" (.int i))) := by
  constructor
  · intro h
    rw [manga_init_isOkE]
    rcases h with h | h
    · simp [h, buildAuthor, isOkE]
    · simp [h, buildAuthor, isOkE]
  · intro m post fs rest url i hinit hau hurl hid
    obtain ⟨ss, se, author, apost, g, ser, rel, rpost, _, h2, _, _, _, hm, _⟩ :=
      manga_init_ok_inv hinit
    rw [hau] at h2
    simp only [buildAuthor] at h2
    rw [hurl] at h2
    simp only [ok_bind] at h2
    rw [hid] at h2
    simp only [ok_bind, Except.ok.injEq, Prod.mk.injEq] at h2
    subst hm
    exact h2.1.symm

/-- Witness for C6: an author record at people-URL 1883 resolves to a Person
reference with id 1883; the empty payload (null author) fails. -/
theorem C6_manga_author_resolution_witness :
    (entOf (Manga.init 2 mangaAuthorPayload)).author
      = PartialPerson.from_author
          (setA [("url", .str "https://myanimelist.net/people/1883/Name"),
                 ("name", .str "Author Name")] "id" (.int 1883)) ∧
    isOkE (Manga.init 3 []) = false := by
  have h1 := (C6_manga_author_resolution 2 mangaAuthorPayload).2
    (entOf (Manga.init 2 mangaAuthorPayload)) (postOf (Manga.init 2 mangaAuthorPayload))
    [("url", .str "https://myanimelist.net/people/1883/Name"),
     ("name", .str "Author Name")] [] (.str "https://myanimelist.net/people/1883/Name")
    1883 rfl rfl rfl rfl
  have h2 := (C6_manga_author_resolution 3 []).1 (Or.inl rfl)
  exact ⟨h1, h2⟩

/-- C9: a Character payload missing the `animeography` or the `mangaography`
key makes construction fail (iteration over the null default), and on
success each appearance record is enriched in place with the numeric `id`
parsed from its `url` and its reference appended in order. -/
theorem C9_character_ography (cid : Int) (kw : Assoc) :
    ((hasKey kw "animeography" = false ∨ hasKey kw "mangaography" = false) →
       isOkE (Character.init cid kw) = false) ∧
    (∀ c post refsA outA refsM outM, Character.init cid kw = .ok (c, post) →
       buildOgraphyV .anime (lookupD kw "animeography") = .ok (refsA, outA) →
       buildOgraphyV .manga (lookupD kw "mangaography") = .ok (refsM, outM) →
       c.animeography = refsA ∧ c.mangaography = refsM ∧
       post = setA (setA kw "animeography" outA) "mangaography" outM) ∧
    (∀ kind fs rest refs out, buildOgraphy kind (.obj fs :: rest) = .ok (refs, out) →
       ∀ url i refsR outR, getItem (.obj fs) "url" = .ok url →
         parse_id url = .ok i →
         buildOgraphy kind rest = .ok (refsR, outR) →
         refs = PartialMedia.from_character kind (setA fs "id" (.int i)) :: refsR ∧
         out = Value.obj (setA fs "id" (.int i)) :: outR) := by
  refine ⟨?_, ?_, ?_⟩
  · intro h
    rw [character_init_isOkE]
    rcases h with h | h
    · rw [lookupD_of_hasKey_false h]
      simp [buildOgraphyV, isOkE]
    · rw [lookupD_of_hasKey_false h]
      simp [buildOgraphyV, isOkE]
  · intro c post refsA outA refsM outM hinit hA hM
    obtain ⟨aog, aogPost, mog, mogPost, h1, h2, hc, hp⟩ := character_init_ok_inv hinit
    rw [h1] at hA
    rw [h2] at hM
    simp only [Except.ok.injEq, Prod.mk.injEq] at hA hM
    subst hc
    subst hp
    exact ⟨hA.1, hM.1, by rw [hA.2, hM.2]⟩
  · intro kind fs rest refs out h url i refsR outR hurl hid hrest
    simp only [buildOgraphy] at h
    rw [hurl] at h
    simp only [ok_bind] at h
    rw [hid] at h
    simp only [ok_bind] at h
    rw [hrest] at h
    simp only [ok_bind, Except.ok.injEq, Prod.mk.injEq] at h
    exact ⟨h.1.symm, h.2.symm⟩

/-- Witness for C9: a one-record animeography at anime-URL 7 resolves to a
reference carrying id 7, and the empty payload fails. -/
theorem C9_character_ography_witness :
    (entOf (Character.init 9 charOgraphyPayload)).animeography
      = [PartialMedia.from_character .anime
           (setA [("url", .str "https://myanimelist.net/anime/7/X"),
                  ("name", .str "X")] "id" (.int 7))] ∧
    isOkE (Character.init 5 []) = false := by
  have h1 := ((C9_character_ography 9 charOgraphyPayload).2.1
    (entOf (Character.init 9 charOgraphyPayload)) (postOf (Character.init 9 charOgraphyPayload))
    [PartialMedia.from_character .anime
       (setA [("url", .str "https://myanimelist.net/anime/7/X"),
              ("name", .str "X")] "id" (.int 7))]
    (.arr [.obj [("url", .str "https://myanimelist.net/anime/7/X"),
                 ("name", .str "X"), ("id", .int 7)]])
    [] (.arr []) rfl rfl rfl).1
  have h2 := (C9_character_ography 5 []).1 (Or.inl rfl)
  exact ⟨h1, h2⟩

theorem beq_symm_false {a b : String} (h : (a == b) = false) : (b == a) = false := by
  simp only [beq_eq_false_iff_ne] at h ⊢
  exact h.symm

/-- Counterexample to C7 as stated: Character construction succeeds on this
payload, yet the caller-visible payload afterwards differs from the input —
the first animeography record, shared by reference, has gained an `id` key. -/
theorem C7_counterexample :
    isOkE (Character.init 9 charOgraphyPayload) = true ∧
    ogFirstHasId charOgraphyPayload = false ∧
    ogFirstHasId (postOf (Character.init 9 charOgraphyPayload)) = true :=
  ⟨rfl, rfl, rfl⟩

/-- C7 (amended): construction touches no external state, and every
top-level entry other than the related/author/ography entries reads back
unchanged afterwards (Person construction returns the payload identically);
but the nested relation records gain a `relation` key and the nested
author/appearance records gain an `id` key in place, so the caller-visible
payload has exactly those entries replaced by their annotated versions. -/
theorem C7_construction_effects (aid mid cid pid : Int) (kwA kwM kwC kwP : Assoc) :
    (∀ p post, Person.init pid kwP = .ok (p, post) → post = kwP) ∧
    (∀ a post, Anime.init aid kwA = .ok (a, post) →
       (∀ k, (k == "related") = false → lookupD post k = lookupD kwA k) ∧
       (∀ refs rpost, buildRelated (lookupD kwA "related") = .ok (refs, rpost) →
          post = setA kwA "related" rpost)) ∧
    (∀ m post, Manga.init mid kwM = .ok (m, post) →
       ∀ k, (k == "related") = false → (k == "author") = false →
         lookupD post k = lookupD kwM k) ∧
    (∀ c post, Character.init cid kwC = .ok (c, post) →
       ∀ k, (k == "animeography") = false → (k == "mangaography") = false →
         lookupD post k = lookupD kwC k) := by
  refine ⟨?_, ?_, ?_, ?_⟩
  · intro p post h
    simp only [Person.init, Except.ok.injEq, Prod.mk.injEq] at h
    exact h.2.symm
  · intro a post h
    obtain ⟨ss, se, g, rel, rpost0, _, _, h3, _, hp⟩ := anime_init_ok_inv h
    subst hp
    constructor
    · intro k hk
      exact lookupD_setA_ne kwA "related" rpost0 k (beq_symm_false hk)
    · intro refs rpost hrel
      rw [h3] at hrel
      simp only [Except.ok.injEq, Prod.mk.injEq] at hrel
      rw [hrel.2]
  · intro m post h k hk1 hk2
    obtain ⟨ss, se, au, ap, g, ser, rel, rpost0, _, _, _, _, _, _, hp⟩ :=
      manga_init_ok_inv h
    subst hp
    rw [lookupD_setA_ne _ "related" rpost0 k (beq_symm_false hk1),
        lookupD_setA_ne _ "author" ap k (beq_symm_false hk2)]
  · intro c post h k hk1 hk2
    obtain ⟨aog, aogPost, mog, mogPost, _, _, _, hp⟩ := character_init_ok_inv h
    subst hp
    rw [lookupD_setA_ne _ "mangaography" mogPost k (beq_symm_false hk2),
        lookupD_setA_ne _ "animeography" aogPost k (beq_symm_false hk1)]

/-- Witness for the amended C7: concrete runs of all four constructors —
the Person payload returns identically, the other payloads keep their
untouched entries (compared at an untouched key) and carry the annotated
related value. -/
theorem C7_construction_effects_witness :
    postOf (Person.init 4 [("name", .str "N")]) = [("name", .str "N")] ∧
    lookupD (postOf (Anime.init 1 sequelPayload)) "aired_string"
      = lookupD sequelPayload "aired_string" ∧
    postOf (Anime.init 1 sequelPayload)
      = setA sequelPayload "related"
          (.obj [("Sequel", .arr
             [.obj [("type", .str "anime"),
                    ("url", .str "https://myanimelist.net/anime/5/Name"),
                    ("title", .str "Name"),
                    ("relation", .str "Sequel")]])]) ∧
    lookupD (postOf (Manga.init 2 mangaAuthorPayload)) "published_string"
      = lookupD mangaAuthorPayload "published_string" ∧
    lookupD (postOf (Character.init 9 charOgraphyPayload)) "name"
      = lookupD charOgraphyPayload "name" := by
  have hP := (C7_construction_effects 1 2 9 4 sequelPayload mangaAuthorPayload
    charOgraphyPayload [("name", .str "N")]).1
    (entOf (Person.init 4 [("name", .str "N")]))
    (postOf (Person.init 4 [("name", .str "N")])) rfl
  have hA := (C7_construction_effects 1 2 9 4 sequelPayload mangaAuthorPayload
    charOgraphyPayload [("name", .str "N")]).2.1
    (entOf (Anime.init 1 sequelPayload)) (postOf (Anime.init 1 sequelPayload)) rfl
  have hM := (C7_construction_effects 1 2 9 4 sequelPayload mangaAuthorPayload
    charOgraphyPayload [("name", .str "N")]).2.2.1
    (entOf (Manga.init 2 mangaAuthorPayload)) (postOf (Manga.init 2 mangaAuthorPayload))
    rfl "published_string" rfl rfl
  have hC := (C7_construction_effects 1 2 9 4 sequelPayload mangaAuthorPayload
    charOgraphyPayload [("name", .str "N")]).2.2.2
    (entOf (Character.init 9 charOgraphyPayload))
    (postOf (Character.init 9 charOgraphyPayload)) rfl "name" rfl rfl
  refine ⟨hP, hA.1 "aired_string" rfl, ?_, hM, hC⟩
  exact hA.2
    [{ kind := .anime, id := .int 5, name := .str "Name"
     , url := .str "https://myanimelist.net/anime/5/Name"
     , relation := .str "Sequel" }]
    (.obj [("Sequel", .arr
       [.obj [("type", .str "anime"),
              ("url", .str "https://myanimelist.net/anime/5/Name"),
              ("title", .str "Name"),
              ("relation", .str "Sequel")]])])
    rfl

/-- C8: re-running a constructor with the same ID on the caller-visible
payload the first run left behind (the same shared dict, nested records
already annotated in place) succeeds and yields the identical attribute
values and the identical payload: the in-place annotations are idempotent
and no other state flows between the two constructions. -/
theorem C8_reconstruction_identical (aid mid cid pid : Int) (kwA kwM kwC kwP : Assoc) :
    (∀ a post, Anime.init aid kwA = .ok (a, post) →
       Anime.init aid post = .ok (a, post)) ∧
    (∀ m post, Manga.init mid kwM = .ok (m, post) →
       Manga.init mid post = .ok (m, post)) ∧
    (∀ c post, Character.init cid kwC = .ok (c, post) →
       Character.init cid post = .ok (c, post)) ∧
    (∀ p post, Person.init pid kwP = .ok (p, post) →
       Person.init pid post = .ok (p, post)) := by
  refine ⟨?_, ?_, ?_, ?_⟩
  · intro a post h
    obtain ⟨ss, se, g, rel, rpost, h1, h2, h3, ha, hp⟩ := anime_init_ok_inv h
    subst ha
    subst hp
    have hfr : ∀ k, ("related" == k) = false →
        lookupD (setA kwA "related" rpost) k = lookupD kwA k :=
      fun k hk => lookupD_setA_ne kwA "related" rpost k hk
    have hrel2 : lookupD (setA kwA "related" rpost) "related" = rpost :=
      lookupD_setA_self kwA "related" rpost
    have hg : genreChoice (setA kwA "related" rpost) = genreChoice kwA := by
      unfold genreChoice
      rw [hfr "genre" rfl, hfr "genres" rfl]
    unfold Anime.init
    simp only [hfr "aired_string" rfl, h1, hg, h2, hrel2, buildRelated_idem h3,
               setA_setA_same, hfr "title" rfl, hfr "type" rfl,
               hfr "title_synonyms" rfl, hfr "image_url" rfl,
               hfr "title_japanese" rfl, hfr "status" rfl, hfr "episodes" rfl,
               hfr "airing" rfl, hfr "premiered" rfl, hfr "broadcast" rfl,
               hfr "synopsis" rfl, hfr "producer" rfl, hfr "licensor" rfl,
               hfr "studio" rfl, hfr "source" rfl, hfr "duration" rfl,
               hfr "link_canonical" rfl, hfr "rating" rfl, hfr "score" rfl,
               hfr "rank" rfl, hfr "popularity" rfl, hfr "members" rfl,
               hfr "favorites" rfl]
  · intro m post h
    obtain ⟨ss, se, au, ap, g, ser, rel, rpost, h1, h2, h3, h4, h5, hm, hp⟩ :=
      manga_init_ok_inv h
    subst hm
    subst hp
    have hfr : ∀ k, ("related" == k) = false → ("author" == k) = false →
        lookupD (setA (setA kwM "author" ap) "related" rpost) k = lookupD kwM k :=
      fun k hk1 hk2 =>
        (lookupD_setA_ne (setA kwM "author" ap) "related" rpost k hk1).trans
          (lookupD_setA_ne kwM "author" ap k hk2)
    have hau2 : lookupD (setA (setA kwM "author" ap) "related" rpost) "author" = ap :=
      (lookupD_setA_ne (setA kwM "author" ap) "related" rpost "author" rfl).trans
        (lookupD_setA_self kwM "author" ap)
    have hrel2 : lookupD (setA (setA kwM "author" ap) "related" rpost) "related" = rpost :=
      lookupD_setA_self (setA kwM "author" ap) "related" rpost
    have hg : genreChoice (setA (setA kwM "author" ap) "related" rpost) = genreChoice kwM := by
      unfold genreChoice
      rw [hfr "genre" rfl rfl, hfr "genres" rfl rfl]
    have hsetau : setA (setA (setA kwM "author" ap) "related" rpost) "author" ap
        = setA (setA kwM "author" ap) "related" rpost :=
      setA_already (by
        rw [hasKey_setA_ne (setA kwM "author" ap) "related" rpost "author" rfl]
        exact hasKey_setA_self kwM "author" ap) hau2
    have hsetrel : setA (setA (setA kwM "author" ap) "related" rpost) "related" rpost
        = setA (setA kwM "author" ap) "related" rpost :=
      setA_already (hasKey_setA_self (setA kwM "author" ap) "related" rpost) hrel2
    unfold Manga.init
    simp only [hfr "published_string" rfl rfl, h1, hau2, buildAuthor_idem h2, hg, h3,
               hfr "serialization" rfl rfl, h4, hrel2, buildRelated_idem h5,
               hsetau, hsetrel, hfr "title" rfl rfl, hfr "type" rfl rfl,
               hfr "title_synonyms" rfl rfl, hfr "image_url" rfl rfl,
               hfr "title_japanese" rfl rfl, hfr "status" rfl rfl,
               hfr "volumes" rfl rfl, hfr "chapters" rfl rfl,
               hfr "publishing" rfl rfl, hfr "synopsis" rfl rfl,
               hfr "link_canonical" rfl rfl, hfr "score" rfl rfl,
               hfr "rank" rfl rfl, hfr "popularity" rfl rfl,
               hfr "members" rfl rfl, hfr "favorites" rfl rfl]
  · intro c post h
    obtain ⟨aog, aogPost, mog, mogPost, h1, h2, hc, hp⟩ := character_init_ok_inv h
    subst hc
    subst hp
    have hfr : ∀ k, ("animeography" == k) = false → ("mangaography" == k) = false →
        lookupD (setA (setA kwC "animeography" aogPost) "mangaography" mogPost) k
          = lookupD kwC k :=
      fun k hk1 hk2 =>
        (lookupD_setA_ne (setA kwC "animeography" aogPost) "mangaography" mogPost k hk2).trans
          (lookupD_setA_ne kwC "animeography" aogPost k hk1)
    have haog2 : lookupD (setA (setA kwC "animeography" aogPost) "mangaography" mogPost)
        "animeography" = aogPost :=
      (lookupD_setA_ne (setA kwC "animeography" aogPost) "mangaography" mogPost
        "animeography" rfl).trans (lookupD_setA_self kwC "animeography" aogPost)
    have hmog2 : lookupD (setA (setA kwC "animeography" aogPost) "mangaography" mogPost)
        "mangaography" = mogPost :=
      lookupD_setA_self (setA kwC "animeography" aogPost) "mangaography" mogPost
    have hsetaog : setA (setA (setA kwC "animeography" aogPost) "mangaography" mogPost)
        "animeography" aogPost
        = setA (setA kwC "animeography" aogPost) "mangaography" mogPost :=
      setA_already (by
        rw [hasKey_setA_ne (setA kwC "animeography" aogPost) "mangaography" mogPost
          "animeography" rfl]
        exact hasKey_setA_self kwC "animeography" aogPost) haog2
    have hsetmog : setA (setA (setA kwC "animeography" aogPost) "mangaography" mogPost)
        "mangaography" mogPost
        = setA (setA kwC "animeography" aogPost) "mangaography" mogPost :=
      setA_already (hasKey_setA_self (setA kwC "animeography" aogPost)
        "mangaography" mogPost) hmog2
    unfold Character.init
    simp only [haog2, buildOgraphyV_idem h1, hmog2, buildOgraphyV_idem h2,
               hsetaog, hsetmog, hfr "link_canonical" rfl rfl, hfr "name" rfl rfl,
               hfr "image_url" rfl rfl, hfr "member_favorites" rfl rfl,
               hfr "name_kanji" rfl rfl, hfr "about" rfl rfl,
               hfr "voice_actors" rfl rfl]
  · intro p post h
    simp only [Person.init, Except.ok.injEq, Prod.mk.injEq] at h
    obtain ⟨hp, hpost⟩ := h
    subst hpost
    simp only [Person.init, Except.ok.injEq, Prod.mk.injEq]
    exact ⟨hp, trivial⟩

/-- Witness for C8: concrete re-runs of all four constructors on the
caller-visible payloads of first runs. -/
theorem C8_reconstruction_identical_witness :
    Anime.init 1 (postOf (Anime.init 1 sequelPayload))
      = .ok (entOf (Anime.init 1 sequelPayload), postOf (Anime.init 1 sequelPayload)) ∧
    Manga.init 2 (postOf (Manga.init 2 mangaAuthorPayload))
      = .ok (entOf (Manga.init 2 mangaAuthorPayload),
             postOf (Manga.init 2 mangaAuthorPayload)) ∧
    Character.init 9 (postOf (Character.init 9 charOgraphyPayload))
      = .ok (entOf (Character.init 9 charOgraphyPayload),
             postOf (Character.init 9 charOgraphyPayload)) ∧
    Person.init 4 [] = .ok (entOf (Person.init 4 []), []) := by
  have h := C8_reconstruction_identical 1 2 9 4 sequelPayload mangaAuthorPayload
    charOgraphyPayload []
  exact ⟨h.1 _ _ rfl, h.2.1 _ _ rfl, h.2.2.1 _ _ rfl, h.2.2.2 _ _ rfl⟩

theorem genreChoice_eraseK {F : String} (hg1 : ("genre" == F) = false)
    (hg2 : ("genres" == F) = false) (kw : Assoc) :
    genreChoice (eraseK F kw) = genreChoice kw := by
  unfold genreChoice
  rw [lookupD_eraseK_ne kw F "genre" hg1, lookupD_eraseK_ne kw F "genres" hg2]

theorem Anime_isOkE_eraseK (aid : Int) (kw : Assoc) (F : String)
    (h1 : ("aired_string" == F) = false) (h2 : ("genre" == F) = false)
    (h3 : ("genres" == F) = false) (h4 : ("related" == F) = false) :
    isOkE (Anime.init aid (eraseK F kw)) = isOkE (Anime.init aid kw) := by
  rw [anime_init_isOkE, anime_init_isOkE,
      lookupD_eraseK_ne kw F "aired_string" h1,
      lookupD_eraseK_ne kw F "related" h4,
      genreChoice_eraseK h2 h3 kw]

theorem Manga_isOkE_eraseK (mid : Int) (kw : Assoc) (F : String)
    (h1 : ("published_string" == F) = false) (h2 : ("author" == F) = false)
    (h3 : ("genre" == F) = false) (h4 : ("genres" == F) = false)
    (h5 : ("serialization" == F) = false) (h6 : ("related" == F) = false) :
    isOkE (Manga.init mid (eraseK F kw)) = isOkE (Manga.init mid kw) := by
  rw [manga_init_isOkE, manga_init_isOkE,
      lookupD_eraseK_ne kw F "published_string" h1,
      lookupD_eraseK_ne kw F "author" h2,
      lookupD_eraseK_ne kw F "serialization" h5,
      lookupD_eraseK_ne kw F "related" h6,
      genreChoice_eraseK h3 h4 kw]

theorem Character_isOkE_eraseK (cid : Int) (kw : Assoc) (F : String)
    (h1 : ("animeography" == F) = false) (h2 : ("mangaography" == F) = false) :
    isOkE (Character.init cid (eraseK F kw)) = isOkE (Character.init cid kw) := by
  rw [character_init_isOkE, character_init_isOkE,
      lookupD_eraseK_ne kw F "animeography" h1,
      lookupD_eraseK_ne kw F "mangaography" h2]

/-- C2: omitted optional fields default to null and never cause a failure.
On every successful construction the attribute of an omitted optional field
(the documented examples: title, status, synopsis, rank and members for
Anime and Manga; the simple Character fields; every Person field) is the
null value; the Person constructor moreover succeeds on every payload
whatsoever; and for Anime, Manga and Character removing such a field from
any payload never changes whether construction succeeds. -/
theorem C2_optional_field_defaults :
    (∀ aid kw a post, Anime.init aid kw = .ok (a, post) →
       (hasKey kw "title" = false → a.title = .null) ∧
       (hasKey kw "status" = false → a.status = .null) ∧
       (hasKey kw "synopsis" = false → a.synopsis = .null) ∧
       (hasKey kw "rank" = false → a.rank = .null) ∧
       (hasKey kw "members" = false → a.members = .null)) ∧
    (∀ mid kw m post, Manga.init mid kw = .ok (m, post) →
       (hasKey kw "title" = false → m.title = .null) ∧
       (hasKey kw "status" = false → m.status = .null) ∧
       (hasKey kw "synopsis" = false → m.synopsis = .null) ∧
       (hasKey kw "rank" = false → m.rank = .null) ∧
       (hasKey kw "members" = false → m.members = .null)) ∧
    (∀ cid kw c post, Character.init cid kw = .ok (c, post) →
       (hasKey kw "name" = false → c.name = .null) ∧
       (hasKey kw "link_canonical" = false → c.link = .null) ∧
       (hasKey kw "image_url" = false → c.image = .null) ∧
       (hasKey kw "member_favorites" = false → c.favorites = .null) ∧
       (hasKey kw "name_kanji" = false → c.japanese_name = .null) ∧
       (hasKey kw "about" = false → c.about = .null) ∧
       (hasKey kw "voice_actors" = false → c.voice_actors = .null)) ∧
    (∀ pid kw, isOkE (Person.init pid kw) = true) ∧
    (∀ pid kw p post, Person.init pid kw = .ok (p, post) →
       (hasKey kw "name" = false → p.name = .null) ∧
       (hasKey kw "link_canonical" = false → p.link = .null) ∧
       (hasKey kw "image_url" = false → p.image = .null) ∧
       (hasKey kw "member_favorites" = false → p.favorites = .null) ∧
       (hasKey kw "anime_staff_position" = false → p.anime = .null) ∧
       (hasKey kw "published_manga" = false → p.manga = .null) ∧
       (hasKey kw "birthday" = false → p.birthday = .null) ∧
       (hasKey kw "more" = false → p.more = .null) ∧
       (hasKey kw "website" = false → p.website = .null) ∧
       (hasKey kw "voice_acting_role" = false → p.voice_acting = .null)) ∧
    (∀ aid kw F, F ∈ (["title", "status", "synopsis", "rank", "members"] : List String) →
       isOkE (Anime.init aid (eraseK F kw)) = isOkE (Anime.init aid kw)) ∧
    (∀ mid kw F, F ∈ (["title", "status", "synopsis", "rank", "members"] : List String) →
       isOkE (Manga.init mid (eraseK F kw)) = isOkE (Manga.init mid kw)) ∧
    (∀ cid kw F, F ∈ (["name", "link_canonical", "image_url", "member_favorites",
                       "name_kanji", "about", "voice_actors"] : List String) →
       isOkE (Character.init cid (eraseK F kw)) = isOkE (Character.init cid kw)) := by
  refine ⟨?_, ?_, ?_, ?_, ?_, ?_, ?_, ?_⟩
  · intro aid kw a post h
    obtain ⟨ss, se, g, rel, rpost, _, _, _, ha, _⟩ := anime_init_ok_inv h
    subst ha
    exact ⟨fun hk => lookupD_of_hasKey_false hk, fun hk => lookupD_of_hasKey_false hk,
           fun hk => lookupD_of_hasKey_false hk, fun hk => lookupD_of_hasKey_false hk,
           fun hk => lookupD_of_hasKey_false hk⟩
  · intro mid kw m post h
    obtain ⟨ss, se, au, ap, g, ser, rel, rpost, _, _, _, _, _, hm, _⟩ :=
      manga_init_ok_inv h
    subst hm
    exact ⟨fun hk => lookupD_of_hasKey_false hk, fun hk => lookupD_of_hasKey_false hk,
           fun hk => lookupD_of_hasKey_false hk, fun hk => lookupD_of_hasKey_false hk,
           fun hk => lookupD_of_hasKey_false hk⟩
  · intro cid kw c post h
    obtain ⟨aog, aogPost, mog, mogPost, _, _, hc, _⟩ := character_init_ok_inv h
    subst hc
    exact ⟨fun hk => lookupD_of_hasKey_false hk, fun hk => lookupD_of_hasKey_false hk,
           fun hk => lookupD_of_hasKey_false hk, fun hk => lookupD_of_hasKey_false hk,
           fun hk => lookupD_of_hasKey_false hk, fun hk => lookupD_of_hasKey_false hk,
           fun hk => lookupD_of_hasKey_false hk⟩
  · intro pid kw
    rfl
  · intro pid kw p post h
    simp only [Person.init, Except.ok.injEq, Prod.mk.injEq] at h
    obtain ⟨hp, _⟩ := h
    subst hp
    exact ⟨fun hk => lookupD_of_hasKey_false hk, fun hk => lookupD_of_hasKey_false hk,
           fun hk => lookupD_of_hasKey_false hk, fun hk => lookupD_of_hasKey_false hk,
           fun hk => lookupD_of_hasKey_false hk, fun hk => lookupD_of_hasKey_false hk,
           fun hk => lookupD_of_hasKey_false hk, fun hk => lookupD_of_hasKey_false hk,
           fun hk => lookupD_of_hasKey_false hk, fun hk => lookupD_of_hasKey_false hk⟩
  · intro aid kw F hF
    fin_cases hF <;> exact Anime_isOkE_eraseK aid kw _ rfl rfl rfl rfl
  · intro mid kw F hF
    fin_cases hF <;> exact Manga_isOkE_eraseK mid kw _ rfl rfl rfl rfl rfl rfl
  · intro cid kw F hF
    fin_cases hF <;> exact Character_isOkE_eraseK cid kw _ rfl rfl

/-- Witness for C2: concrete payloads omitting the optional fields hydrate
with null attributes, the Person constructor succeeds on the empty payload,
and removing `title` does not change the success of a concrete Anime run. -/
theorem C2_optional_field_defaults_witness :
    (entOf (Anime.init 1 minimalAnimePayload)).title = .null ∧
    (entOf (Manga.init 2 mangaAuthorPayload)).status = .null ∧
    (entOf (Character.init 9 charOgraphyPayload)).name = .null ∧
    isOkE (Person.init 4 []) = true ∧
    (entOf (Person.init 4 [])).name = .null ∧
    isOkE (Anime.init 1 (eraseK "title" minimalAnimePayload))
      = isOkE (Anime.init 1 minimalAnimePayload) := by
  refine ⟨?_, ?_, ?_, C2_optional_field_defaults.2.2.2.1 4 [], ?_, ?_⟩
  · exact (C2_optional_field_defaults.1 1 minimalAnimePayload
      (entOf (Anime.init 1 minimalAnimePayload))
      (postOf (Anime.init 1 minimalAnimePayload)) rfl).1 rfl
  · exact (C2_optional_field_defaults.2.1 2 mangaAuthorPayload
      (entOf (Manga.init 2 mangaAuthorPayload))
      (postOf (Manga.init 2 mangaAuthorPayload)) rfl).2.1 rfl
  · exact (C2_optional_field_defaults.2.2.1 9 charOgraphyPayload
      (entOf (Character.init 9 charOgraphyPayload))
      (postOf (Character.init 9 charOgraphyPayload)) rfl).1 rfl
  · exact (C2_optional_field_defaults.2.2.2.2.1 4 []
      (entOf (Person.init 4 [])) [] rfl).1 rfl
  · exact C2_optional_field_defaults.2.2.2.2.2.1 1 minimalAnimePayload "title"
      (by simp)

end Tokage
